import Mathlib

/-
Verification development for the rosie web-agent core.

The embedding below models, from the JavaScript source:
  - `lib/webAgent.js`: `WebAgent.parseAnalysis`, `WebAgent.extractSelector`,
    `WebAgent.extractValue`, `WebAgent.executeActions`, `WebAgent.executeTask`;
  - the API route handler (POST endpoint) that creates the agent, runs one
    task and responds.

JavaScript strings are embedded as `List Char` where character-level scanning
matters (substring search, regex matching, line splitting) and as `String`
elsewhere.  External collaborators (the puppeteer page, the chat-completion
service, browser launch) are parameters: a `Driver` maps each requested
browser operation to success or a thrown error message, and the orchestrator
stages carry their own success-or-throw outcomes.  The executor additionally
returns the sequence of driver operations it actually requested, so that
claims about what is (not) dispatched to the browser are statable.
-/

namespace Rosie

/-- The double-quote character, written via its code point. -/
def dq : Char := Char.ofNat 34

/-- The single-quote character, written via its code point. -/
def sq : Char := Char.ofNat 39

/-- JavaScript `hay.includes(needle)`: contiguous-substring search. -/
def hasSub (needle : List Char) : List Char → Bool
  | [] => needle.isEmpty
  | c :: cs => needle.isPrefixOf (c :: cs) || hasSub needle cs

/-- JavaScript `s.split('\n')`: split on every newline, keeping empty pieces;
the empty string yields one empty piece. -/
def splitOnNl : List Char → List (List Char)
  | [] => [[]]
  | c :: cs =>
    if c = '\n' then [] :: splitOnNl cs
    else
      match splitOnNl cs with
      | [] => [[c]]
      | l :: ls => (c :: l) :: ls

/-- One attempted match, anchored at the head of `l`, of a JavaScript regex of
the shape `pre([^d]+)d`: the literal `pre`, then a nonempty greedy run of
characters other than `d`, then the closing `d`.  Returns the capture group. -/
def tryCapture (pre : List Char) (d : Char) (l : List Char) : Option (List Char) :=
  if pre.isPrefixOf l then
    let rest := l.drop pre.length
    let cap := rest.takeWhile (fun c => c ≠ d)
    if cap.isEmpty then none
    else if (rest.drop cap.length).isEmpty then none
    else some cap
  else none

/-- JavaScript `line.match(/pre([^d]+)d/)`, first capture group: try
`tryCapture` at each position from the left and return the first success. -/
def firstCapture (pre : List Char) (d : Char) : List Char → Option (List Char)
  | [] => none
  | c :: cs =>
    match tryCapture pre d (c :: cs) with
    | some cap => some cap
    | none => firstCapture pre d cs

/-- The literal head of the regex `id="([^"]+)"` from `extractSelector`. -/
def idPat : List Char := "id=".toList ++ [dq]

/-- The literal head of the regex `class="([^"]+)"` from `extractSelector`. -/
def classPat : List Char := "class=".toList ++ [dq]

/-- The literal head of the regex `value="([^"]+)"` from `extractValue`. -/
def valuePat : List Char := "value=".toList ++ [dq]

/-- The keyword `"click"` searched for by `parseAnalysis`. -/
def kwClick : List Char := "click".toList

/-- The keyword `"type"` searched for by `parseAnalysis`. -/
def kwType : List Char := "type".toList

/-- The keyword `"submit"` searched for by `parseAnalysis`. -/
def kwSubmit : List Char := "submit".toList

/-- One structured action as built by `parseAnalysis`: a `type` tag string, a
selector that may be `null` (`none`), and — for type actions — a value.
`value = none` models the absence of the `value` property on the JavaScript
object. -/
structure Action where
  type : String
  selector : Option String
  value : Option String
deriving DecidableEq

/-- The action tags the executor's `switch` recognizes. -/
def Action.Known (a : Action) : Prop :=
  a.type = "click" ∨ a.type = "type" ∨ a.type = "submit"

instance (a : Action) : Decidable a.Known := by
  unfold Action.Known
  infer_instance

/-- `WebAgent.extractSelector`: try the `id="…"` pattern, then the
`class="…"` pattern, then a single-quoted literal, else `null`. -/
def extractSelector (line : List Char) : Option String :=
  match firstCapture idPat dq line with
  | some cap => some ("#" ++ String.mk cap)
  | none =>
    match firstCapture classPat dq line with
    | some cap => some ("." ++ String.mk cap)
    | none =>
      match firstCapture [sq] sq line with
      | some cap => some ("text=" ++ String.mk [dq] ++ String.mk cap ++ String.mk [dq])
      | none => none

/-- `WebAgent.extractValue`: the `value="…"` pattern, defaulting to `""`. -/
def extractValue (line : List Char) : String :=
  match firstCapture valuePat dq line with
  | some cap => String.mk cap
  | none => ""

/-- The body of the per-line loop in `WebAgent.parseAnalysis`: an
if / else-if chain on case-sensitive substring search, pushing at most one
action per line. -/
def parseLine (line : List Char) : List Action :=
  if hasSub kwClick line then [⟨"click", extractSelector line, none⟩]
  else if hasSub kwType line then [⟨"type", extractSelector line, some (extractValue line)⟩]
  else if hasSub kwSubmit line then [⟨"submit", extractSelector line, none⟩]
  else []

/-- `WebAgent.parseAnalysis`: split the raw plan text on newlines and run the
per-line loop, concatenating the pushed actions in order. -/
def parseAnalysis (analysis : String) : List Action :=
  (splitOnNl analysis.toList).flatMap parseLine

/-- A JavaScript value appearing as an element of the executor's `results`
array.  The source pushes plain template-literal strings; the `vrecord`
constructor embeds the record shape `\x7bdescription, succeeded\x7d` that the
specification's `ActionResult` prescribes, so that conformance of the code's
values to that shape is statable. -/
inductive JsValue where
  | vstr (s : String)
  | vrecord (description : String) (succeeded : Bool)
deriving DecidableEq

/-- Whether a JavaScript value has the specification's `ActionResult` record
shape (a string `description` together with a boolean `succeeded`). -/
def isActionResultRecord : JsValue → Bool
  | JsValue.vrecord _ _ => true
  | JsValue.vstr _ => false

/-- One operation requested from the browser driver (the puppeteer page):
`page.click(selector)`, `page.type(selector, value)`, the in-page
`querySelector(selector).submit()` evaluation, and
`page.waitForNetworkIdle(...)`.  Selectors are `Option String` because the
code may pass `null`. -/
inductive DriverOp where
  | click (selector : Option String)
  | typeInto (selector : Option String) (value : Option String)
  | submit (selector : Option String)
  | networkIdle
deriving DecidableEq

/-- The selector argument an operation carries, if any. -/
def targetOf : DriverOp → Option (Option String)
  | DriverOp.click s => some s
  | DriverOp.typeInto s _ => some s
  | DriverOp.submit s => some s
  | DriverOp.networkIdle => none

/-- A driver behavior: for each requested operation, either success or a
thrown error with its message. -/
abbrev Driver := DriverOp → Except String Unit

/-- The driver operation the executor's `switch` would dispatch for an
action, if the action's tag is recognized. -/
def dispatchOf (a : Action) : Option DriverOp :=
  if a.type = "click" then some (DriverOp.click a.selector)
  else if a.type = "type" then some (DriverOp.typeInto a.selector a.value)
  else if a.type = "submit" then some (DriverOp.submit a.selector)
  else none

/-- JavaScript template-literal rendering of a possibly-null selector:
`null` prints as the string `"null"`. -/
def showSel : Option String → String
  | some s => s
  | none => "null"

/-- One iteration of the loop in `WebAgent.executeActions`:
the `try` block switches on `action.type`, dispatches the operation, pushes a
success string, then awaits `waitForNetworkIdle` whose rejection is swallowed
by `.catch(() => \x7b\x7d)`; a thrown driver error jumps to `catch`, which
pushes a failure string (so the settle wait is skipped).  An unrecognized tag
falls through the `switch`, pushes nothing, and still reaches the settle
wait.  Returns (pushed results, requested driver operations). -/
def execOne (d : Driver) (a : Action) : List JsValue × List DriverOp :=
  if a.type = "click" then
    match d (DriverOp.click a.selector) with
    | Except.ok _ =>
      ([JsValue.vstr ("Clicked " ++ showSel a.selector)],
       [DriverOp.click a.selector, DriverOp.networkIdle])
    | Except.error e =>
      ([JsValue.vstr ("Failed to execute " ++ a.type ++ ": " ++ e)],
       [DriverOp.click a.selector])
  else if a.type = "type" then
    match d (DriverOp.typeInto a.selector a.value) with
    | Except.ok _ =>
      ([JsValue.vstr ("Typed into " ++ showSel a.selector)],
       [DriverOp.typeInto a.selector a.value, DriverOp.networkIdle])
    | Except.error e =>
      ([JsValue.vstr ("Failed to execute " ++ a.type ++ ": " ++ e)],
       [DriverOp.typeInto a.selector a.value])
  else if a.type = "submit" then
    match d (DriverOp.submit a.selector) with
    | Except.ok _ =>
      ([JsValue.vstr ("Submitted form " ++ showSel a.selector)],
       [DriverOp.submit a.selector, DriverOp.networkIdle])
    | Except.error e =>
      ([JsValue.vstr ("Failed to execute " ++ a.type ++ ": " ++ e)],
       [DriverOp.submit a.selector])
  else ([], [DriverOp.networkIdle])

/-- `WebAgent.executeActions`: run the per-action loop over the whole
sequence, accumulating pushed results and requested driver operations in
order.  The function is total: per-action failures are absorbed inside
`execOne`, mirroring the per-iteration try/catch. -/
def executeActions (d : Driver) : List Action → List JsValue × List DriverOp
  | [] => ([], [])
  | a :: rest =>
    let r := execOne d a
    let next := executeActions d rest
    (r.1 ++ next.1, r.2 ++ next.2)

/-- One extracted link (`WebAgent.extractPageContent`). -/
structure LinkInfo where
  text : String
  href : String
deriving DecidableEq

/-- One extracted input element (`WebAgent.extractPageContent`). -/
structure InputInfo where
  type : String
  id : String
  name : String
  placeholder : String
deriving DecidableEq

/-- One extracted button element (`WebAgent.extractPageContent`). -/
structure ButtonInfo where
  text : String
  id : String
  type : String
deriving DecidableEq

/-- The page snapshot produced by `WebAgent.extractPageContent`. -/
structure PageContent where
  text : String
  links : List LinkInfo
  inputs : List InputInfo
  buttons : List ButtonInfo
deriving DecidableEq

/-- Outcomes of the external stages `executeTask` sequences: `page.goto`
(navigation, with its own 8000 ms timeout), `extractPageContent`
(page evaluation), and the chat-completion call inside `analyzeContent`
returning the raw plan text.  Each is either a value or a thrown error
message.  Prompt construction is pure string building and cannot throw, so it
does not appear as a failure source. -/
structure Stages where
  goto : Except String Unit
  extract : Except String PageContent
  chat : Except String String

/-- The value `WebAgent.executeTask` settles to: either the success object
`\x7bsuccess: true, result, message\x7d` or the single wrapped error it
throws.  The error constructor carries only a message — no action results. -/
inductive TaskOutcome where
  | ok (result : List JsValue) (message : String)
  | err (message : String)
deriving DecidableEq

/-- `WebAgent.executeTask`: goto, extract, chat-complete, parse, execute,
inside one try/catch that wraps any thrown stage error as
`Task execution failed: <message>`.  `parseAnalysis` and `executeActions`
are total, so only the three external stages can reach the catch. -/
def executeTask (st : Stages) (d : Driver) : TaskOutcome :=
  match st.goto with
  | Except.error e => TaskOutcome.err ("Task execution failed: " ++ e)
  | Except.ok _ =>
    match st.extract with
    | Except.error e => TaskOutcome.err ("Task execution failed: " ++ e)
    | Except.ok _ =>
      match st.chat with
      | Except.error e => TaskOutcome.err ("Task execution failed: " ++ e)
      | Except.ok text =>
        TaskOutcome.ok (executeActions d (parseAnalysis text)).1
          "Task completed successfully"

/-- The request seen by the API route handler: the HTTP method and the two
body fields, where `none` models an absent field and the JavaScript truthiness
test also rejects the empty string. -/
structure Req where
  method : String
  url : Option String
  task : Option String
deriving DecidableEq

/-- JavaScript falsiness of an optional string field: absent or empty. -/
def falsy : Option String → Bool
  | none => true
  | some s => s = ""

/-- The agent lifecycle calls the handler can make on the `WebAgent`. -/
inductive AgentEvent where
  | launch
  | runTask
  | close
deriving DecidableEq

/-- Behavior of one `WebAgent` instance as the handler observes it:
the outcome of `initialize` (browser launch), the stage outcomes and driver
behavior consumed by `executeTask`, and the outcome of `close`. -/
structure AgentBehavior where
  launch : Except String Unit
  stages : Stages
  driver : Driver
  close : Except String Unit

/-- The API route handler: reject non-POST with 405 and missing/empty fields
with 400; then, inside one try/catch, create the agent, `initialize` it, run
`executeTask`, `close` the agent, and respond 200 — any throw jumps to the
catch, which responds 500 without running the remaining calls.  Returns the
status code and the ordered agent lifecycle calls performed. -/
def handler (req : Req) (ag : AgentBehavior) : Nat × List AgentEvent :=
  if req.method ≠ "POST" then (405, [])
  else if falsy req.url || falsy req.task then (400, [])
  else
    match ag.launch with
    | Except.error _ => (500, [AgentEvent.launch])
    | Except.ok _ =>
      match executeTask ag.stages ag.driver with
      | TaskOutcome.err _ => (500, [AgentEvent.launch, AgentEvent.runTask])
      | TaskOutcome.ok _ _ =>
        match ag.close with
        | Except.error _ =>
          (500, [AgentEvent.launch, AgentEvent.runTask, AgentEvent.close])
        | Except.ok _ =>
          (200, [AgentEvent.launch, AgentEvent.runTask, AgentEvent.close])

/-- A driver on which every operation succeeds. -/
def dAllOk : Driver := fun _ => Except.ok ()

/-- A driver on which every operation throws, as puppeteer does when handed a
`null` selector. -/
def dReject : Driver := fun _ => Except.error "selector must be a string"

/-- A driver that throws exactly on clicking `#b`. -/
def dFailSecond : Driver := fun op =>
  if op = DriverOp.click (some "#b") then Except.error "element not found"
  else Except.ok ()

/-- Fixture: a click action on `#a`. -/
def actClickA : Action := ⟨"click", some "#a", none⟩

/-- Fixture: a click action on `#b`. -/
def actClickB : Action := ⟨"click", some "#b", none⟩

/-- Fixture: a click action on `#c`. -/
def actClickC : Action := ⟨"click", some "#c", none⟩

/-- Fixture: a type action whose selector the parser could not resolve. -/
def actNullType : Action := ⟨"type", none, some "hello"⟩

/-- Fixture: an action tag the executor's switch does not recognize. -/
def actHover : Action := ⟨"hover", none, none⟩

/-- Fixture: an empty page snapshot. -/
def pcEmpty : PageContent := ⟨"", [], [], []⟩

/-- Fixture: all stages succeed; the chat response is one plan line. -/
def stagesOk : Stages :=
  ⟨Except.ok (), Except.ok pcEmpty, Except.ok "1. click the button with id=\"login-btn\""⟩

/-- Fixture: navigation times out, as under the 8000 ms `goto` bound. -/
def stagesNavFail : Stages :=
  ⟨Except.error "Navigation timeout of 8000 ms exceeded", Except.ok pcEmpty, Except.ok ""⟩

/-- Fixture: an agent whose whole run succeeds. -/
def agOk : AgentBehavior := ⟨Except.ok (), stagesOk, dAllOk, Except.ok ()⟩

/-- Fixture: an agent whose task fails at navigation. -/
def agNavFail : AgentBehavior := ⟨Except.ok (), stagesNavFail, dAllOk, Except.ok ()⟩

/-- Fixture: a well-formed POST request. -/
def reqOk : Req := ⟨"POST", some "https://example.com", some "log in with user test"⟩


/-- Unfolding lemma: the executor on the empty sequence. -/
theorem executeActions_nil (d : Driver) : executeActions d [] = ([], []) := rfl

/-- Unfolding lemma: one loop iteration followed by the rest. -/
theorem executeActions_cons (d : Driver) (a : Action) (rest : List Action) :
    executeActions d (a :: rest)
      = ((execOne d a).1 ++ (executeActions d rest).1,
         (execOne d a).2 ++ (executeActions d rest).2) := rfl

/-- Branch lemma: a recognized click whose driver call succeeds. -/
theorem execOne_click_ok (d : Driver) (a : Action)
    (h : a.type = "click") (hd : d (DriverOp.click a.selector) = Except.ok ()) :
    execOne d a
      = ([JsValue.vstr ("Clicked " ++ showSel a.selector)],
         [DriverOp.click a.selector, DriverOp.networkIdle]) := by
  unfold execOne
  rw [if_pos h, hd]

/-- Branch lemma: a recognized click whose driver call throws. -/
theorem execOne_click_err (d : Driver) (a : Action) (e : String)
    (h : a.type = "click") (hd : d (DriverOp.click a.selector) = Except.error e) :
    execOne d a
      = ([JsValue.vstr ("Failed to execute " ++ a.type ++ ": " ++ e)],
         [DriverOp.click a.selector]) := by
  unfold execOne
  rw [if_pos h, hd]

/-- Branch lemma: a recognized type action whose driver call succeeds. -/
theorem execOne_type_ok (d : Driver) (a : Action)
    (h : a.type = "type") (hd : d (DriverOp.typeInto a.selector a.value) = Except.ok ()) :
    execOne d a
      = ([JsValue.vstr ("Typed into " ++ showSel a.selector)],
         [DriverOp.typeInto a.selector a.value, DriverOp.networkIdle]) := by
  unfold execOne
  rw [if_neg (by rw [h]; decide), if_pos h, hd]

/-- Branch lemma: a recognized type action whose driver call throws. -/
theorem execOne_type_err (d : Driver) (a : Action) (e : String)
    (h : a.type = "type") (hd : d (DriverOp.typeInto a.selector a.value) = Except.error e) :
    execOne d a
      = ([JsValue.vstr ("Failed to execute " ++ a.type ++ ": " ++ e)],
         [DriverOp.typeInto a.selector a.value]) := by
  unfold execOne
  rw [if_neg (by rw [h]; decide), if_pos h, hd]

/-- Branch lemma: a recognized submit action whose driver call succeeds. -/
theorem execOne_submit_ok (d : Driver) (a : Action)
    (h : a.type = "submit") (hd : d (DriverOp.submit a.selector) = Except.ok ()) :
    execOne d a
      = ([JsValue.vstr ("Submitted form " ++ showSel a.selector)],
         [DriverOp.submit a.selector, DriverOp.networkIdle]) := by
  unfold execOne
  rw [if_neg (by rw [h]; decide), if_neg (by rw [h]; decide), if_pos h, hd]

/-- Branch lemma: a recognized submit action whose driver call throws. -/
theorem execOne_submit_err (d : Driver) (a : Action) (e : String)
    (h : a.type = "submit") (hd : d (DriverOp.submit a.selector) = Except.error e) :
    execOne d a
      = ([JsValue.vstr ("Failed to execute " ++ a.type ++ ": " ++ e)],
         [DriverOp.submit a.selector]) := by
  unfold execOne
  rw [if_neg (by rw [h]; decide), if_neg (by rw [h]; decide), if_pos h, hd]

/-- Branch lemma: an unrecognized tag falls through the switch, pushes no
result, and still performs the network-settle wait. -/
theorem execOne_unknown (d : Driver) (a : Action) (h : ¬ a.Known) :
    execOne d a = ([], [DriverOp.networkIdle]) := by
  unfold Action.Known at h
  push_neg at h
  unfold execOne
  rw [if_neg h.1, if_neg h.2.1, if_neg h.2.2]

/-- Each loop iteration pushes at most one result. -/
theorem execOne_results_length_le (d : Driver) (a : Action) :
    (execOne d a).1.length ≤ 1 := by
  unfold execOne
  by_cases h1 : a.type = "click"
  · rcases hd : d (DriverOp.click a.selector) with _ | e <;> simp [h1, hd]
  · by_cases h2 : a.type = "type"
    · rcases hd : d (DriverOp.typeInto a.selector a.value) with _ | e <;> simp [h1, h2, hd]
    · by_cases h3 : a.type = "submit"
      · rcases hd : d (DriverOp.submit a.selector) with _ | e <;> simp [h1, h2, h3, hd]
      · simp [h1, h2, h3]

/-- Each loop iteration on a recognized tag pushes exactly one result. -/
theorem execOne_known_length (d : Driver) (a : Action) (h : a.Known) :
    (execOne d a).1.length = 1 := by
  unfold execOne
  rcases h with h1 | h1 | h1
  · rcases hd : d (DriverOp.click a.selector) with _ | e <;> simp [h1, hd]
  · rcases hd : d (DriverOp.typeInto a.selector a.value) with _ | e <;>
      simp [h1, hd, show ("type" : String) ≠ "click" by decide]
  · rcases hd : d (DriverOp.submit a.selector) with _ | e <;>
      simp [h1, hd, show ("submit" : String) ≠ "click" by decide,
        show ("submit" : String) ≠ "type" by decide]

/-- Every value the loop pushes is a plain string. -/
theorem execOne_results_vstr (d : Driver) (a : Action) (v : JsValue)
    (hv : v ∈ (execOne d a).1) : ∃ s, v = JsValue.vstr s := by
  revert hv
  unfold execOne
  by_cases h1 : a.type = "click"
  · rcases hd : d (DriverOp.click a.selector) with _ | e <;> simp [h1, hd] <;>
      exact fun hv => ⟨_, hv⟩
  · by_cases h2 : a.type = "type"
    · rcases hd : d (DriverOp.typeInto a.selector a.value) with _ | e <;>
        simp [h1, h2, hd] <;> exact fun hv => ⟨_, hv⟩
    · by_cases h3 : a.type = "submit"
      · rcases hd : d (DriverOp.submit a.selector) with _ | e <;>
          simp [h1, h2, h3, hd] <;> exact fun hv => ⟨_, hv⟩
      · simp [h1, h2, h3]

/-- The executor's results are the concatenation, in input order, of each
action's own pushed results. -/
theorem executeActions_results_flatMap (d : Driver) (as : List Action) :
    (executeActions d as).1 = as.flatMap (fun a => (execOne d a).1) := by
  induction as with
  | nil => rfl
  | cons a rest ih => simp [executeActions_cons, ih]

/-- The executor never returns more results than actions. -/
theorem executeActions_length_le (d : Driver) (as : List Action) :
    (executeActions d as).1.length ≤ as.length := by
  induction as with
  | nil => simp [executeActions_nil]
  | cons a rest ih =>
    have h := execOne_results_length_le d a
    simp only [executeActions_cons, List.length_append, List.length_cons]
    omega

/-- If some member of the sequence pushes no result, the executor returns
strictly fewer results than actions. -/
theorem executeActions_length_lt (d : Driver) (as : List Action) (a : Action)
    (h0 : (execOne d a).1 = []) (hm : a ∈ as) :
    (executeActions d as).1.length < as.length := by
  induction as with
  | nil => cases hm
  | cons b rest ih =>
    rcases List.mem_cons.mp hm with hba | hmem
    · have hle := executeActions_length_le d rest
      subst hba
      simp only [executeActions_cons, List.length_append, List.length_cons, h0,
        List.length_nil]
      omega
    · have hb := execOne_results_length_le d b
      have hlt := ih hmem
      simp only [executeActions_cons, List.length_append, List.length_cons]
      omega

/-- On a recognized sequence the executor returns exactly one result per
action. -/
theorem executeActions_known_length (d : Driver) (as : List Action)
    (h : ∀ a ∈ as, a.Known) :
    (executeActions d as).1.length = as.length := by
  induction as with
  | nil => rfl
  | cons a rest ih =>
    simp only [executeActions_cons, List.length_append, List.length_cons]
    rw [execOne_known_length d a (h a (List.mem_cons_self a rest)),
      ih (fun b hb => h b (List.mem_cons_of_mem a hb))]
    omega

/-- One iteration never consults the driver's network-settle outcome: two
drivers agreeing on every operation other than `networkIdle` produce the same
results and the same operation trace. -/
theorem execOne_agree (d d' : Driver) (a : Action)
    (hagree : ∀ q, q ≠ DriverOp.networkIdle → d q = d' q) :
    execOne d a = execOne d' a := by
  unfold execOne
  split_ifs with h1 h2 h3
  · rw [hagree (DriverOp.click a.selector) (by simp)]
  · rw [hagree (DriverOp.typeInto a.selector a.value) (by simp)]
  · rw [hagree (DriverOp.submit a.selector) (by simp)]
  · rfl

/-- The whole executor never consults the network-settle outcome. -/
theorem executeActions_agree (d d' : Driver) (as : List Action)
    (hagree : ∀ q, q ≠ DriverOp.networkIdle → d q = d' q) :
    executeActions d as = executeActions d' as := by
  induction as with
  | nil => rfl
  | cons a rest ih =>
    rw [executeActions_cons, executeActions_cons, execOne_agree d d' a hagree, ih]

/-- A line yields one action exactly when it contains at least one of the
three keywords, and no action otherwise. -/
theorem parseLine_length (l : List Char) :
    (parseLine l).length
      = if hasSub kwClick l || hasSub kwType l || hasSub kwSubmit l then 1 else 0 := by
  by_cases h1 : hasSub kwClick l <;> by_cases h2 : hasSub kwType l <;>
    by_cases h3 : hasSub kwSubmit l <;> simp [parseLine, h1, h2, h3]

/-- Every action the parser produces carries one of the three recognized
tags. -/
theorem parseAnalysis_known (s : String) (b : Action) (hb : b ∈ parseAnalysis s) :
    b.Known := by
  unfold parseAnalysis at hb
  rcases List.mem_flatMap.mp hb with ⟨l, _, hbl⟩
  unfold parseLine at hbl
  split_ifs at hbl with h1 h2 h3
  · rw [List.mem_singleton.mp hbl]
    exact Or.inl rfl
  · rw [List.mem_singleton.mp hbl]
    exact Or.inr (Or.inl rfl)
  · rw [List.mem_singleton.mp hbl]
    exact Or.inr (Or.inr rfl)
  · cases hbl



/-- C1 counterexample: the executor does invoke the browser driver with a
null target.  For the click action whose selector is null, the operation
`click(null)` appears in the trace of driver operations actually requested —
the code has no null check before dispatch. -/
theorem c1_null_selector_dispatched_cex :
    targetOf (DriverOp.click none) = some none ∧
    DriverOp.click none ∈ (executeActions dReject [Action.mk "click" none none]).2 := by
  decide

/-- C1 (amended): for every action with a null selector, the executor does
pass the null target to the driver; when that driver call throws, the action
is recorded as a failed result and the remaining actions are still executed —
the executor itself never raises (it is a total function). -/
theorem c1_null_failure_recorded (d : Driver) (rest : List Action) (a : Action)
    (e : String) (hknown : a.Known) (hsel : a.selector = none)
    (hd : ∀ op, targetOf op = some none → d op = Except.error e) :
    (executeActions d (a :: rest)).1
      = JsValue.vstr ("Failed to execute " ++ a.type ++ ": " ++ e)
          :: (executeActions d rest).1 ∧
    ∃ op, targetOf op = some none ∧ op ∈ (executeActions d (a :: rest)).2 := by
  rcases hknown with h1 | h1 | h1
  · have hd' : d (DriverOp.click a.selector) = Except.error e := by
      rw [hsel]; exact hd _ rfl
    rw [executeActions_cons, execOne_click_err d a e h1 hd']
    refine ⟨rfl, DriverOp.click a.selector, by simp [targetOf, hsel], ?_⟩
    exact List.mem_append_left _ (List.mem_cons_self _ _)
  · have hd' : d (DriverOp.typeInto a.selector a.value) = Except.error e := by
      rw [hsel]; exact hd _ rfl
    rw [executeActions_cons, execOne_type_err d a e h1 hd']
    refine ⟨rfl, DriverOp.typeInto a.selector a.value, by simp [targetOf, hsel], ?_⟩
    exact List.mem_append_left _ (List.mem_cons_self _ _)
  · have hd' : d (DriverOp.submit a.selector) = Except.error e := by
      rw [hsel]; exact hd _ rfl
    rw [executeActions_cons, execOne_submit_err d a e h1 hd']
    refine ⟨rfl, DriverOp.submit a.selector, by simp [targetOf, hsel], ?_⟩
    exact List.mem_append_left _ (List.mem_cons_self _ _)

/-- Witness for the amended C1: a parser-shaped type action with a null
selector, under a driver that rejects null targets. -/
theorem c1_null_failure_recorded_w :
    (actNullType.Known ∧ actNullType.selector = none) ∧
    (executeActions dReject [actNullType, actClickA]).1
      = JsValue.vstr ("Failed to execute " ++ actNullType.type ++ ": "
            ++ "selector must be a string")
          :: (executeActions dReject [actClickA]).1 :=
  ⟨⟨by decide, rfl⟩,
    (c1_null_failure_recorded dReject [actClickA] actNullType
      "selector must be a string" (by decide) rfl (fun _ _ => rfl)).1⟩

/-- C2: on any sequence of data-model actions (every tag one of
click / type / submit), the executor returns exactly one result per action;
the result sequence is the in-order concatenation of each action's own
outcome, and — concretely — for a length-3 sequence whose 2nd action throws,
exactly 3 results come back in order with only the 2nd a failure. -/
theorem c2_length_and_isolation (d : Driver) (as : List Action)
    (h : ∀ a ∈ as, a.Known) :
    (executeActions d as).1.length = as.length ∧
    (executeActions d as).1 = as.flatMap (fun a => (execOne d a).1) ∧
    (executeActions dFailSecond [actClickA, actClickB, actClickC]).1
      = [JsValue.vstr "Clicked #a",
         JsValue.vstr "Failed to execute click: element not found",
         JsValue.vstr "Clicked #c"] :=
  ⟨executeActions_known_length d as h, executeActions_results_flatMap d as, by decide⟩

/-- Witness for C2 on the concrete 3-action sequence. -/
theorem c2_length_and_isolation_w :
    (∀ a ∈ [actClickA, actClickB, actClickC], a.Known) ∧
    (executeActions dFailSecond [actClickA, actClickB, actClickC]).1.length
      = ([actClickA, actClickB, actClickC] : List Action).length :=
  ⟨by decide,
    (c2_length_and_isolation dFailSecond [actClickA, actClickB, actClickC]
      (by decide)).1⟩

/-- C3: for every raw plan text the parser terminates (it is a total
function) and produces exactly one action per line containing at least one of
the substrings click / type / submit, dropping the rest: its output length
equals the number of matching lines. -/
theorem c3_parser_count (analysis : String) :
    (parseAnalysis analysis).length
      = ((splitOnNl analysis.toList).filter
          (fun l => hasSub kwClick l || hasSub kwType l || hasSub kwSubmit l)).length := by
  unfold parseAnalysis
  generalize splitOnNl analysis.toList = ls
  induction ls with
  | nil => rfl
  | cons l ls ih =>
    by_cases hc : hasSub kwClick l || hasSub kwType l || hasSub kwSubmit l
    · simp [List.flatMap_cons, parseLine_length l, hc, ih, List.filter_cons]
      omega
    · simp [List.flatMap_cons, parseLine_length l, hc, ih, List.filter_cons]

/-- Witness for C3 at a concrete plan text. -/
theorem c3_parser_count_w :
    (parseAnalysis "click a\nnothing here\ntype b").length
      = ((splitOnNl ("click a\nnothing here\ntype b").toList).filter
          (fun l => hasSub kwClick l || hasSub kwType l || hasSub kwSubmit l)).length :=
  c3_parser_count "click a\nnothing here\ntype b"

/-- C4 counterexample: keyword matching is case-sensitive, so the spec's line
`1. Click the button with id="login-btn"` (capital C) contains none of the
lowercase keywords and parses to no action at all; executing the parse result
records nothing. -/
theorem c4_capital_click_cex :
    parseAnalysis "1. Click the button with id=\"login-btn\"" = [] ∧
    (executeActions dAllOk
      (parseAnalysis "1. Click the button with id=\"login-btn\"")).1 = [] := by
  decide

/-- C4 (amended): with the lowercase keyword, the line parses to a click
action with selector `#login-btn`, and when the driver's click succeeds the
recorded result is the string `Clicked #login-btn`. -/
theorem c4_lowercase_click (d : Driver)
    (hd : d (DriverOp.click (some "#login-btn")) = Except.ok ()) :
    parseAnalysis "1. click the button with id=\"login-btn\""
      = [Action.mk "click" (some "#login-btn") none] ∧
    (executeActions d (parseAnalysis "1. click the button with id=\"login-btn\"")).1
      = [JsValue.vstr "Clicked #login-btn"] := by
  have hp : parseAnalysis "1. click the button with id=\"login-btn\""
      = [Action.mk "click" (some "#login-btn") none] := by decide
  refine ⟨hp, ?_⟩
  rw [hp, executeActions_cons,
    execOne_click_ok d (Action.mk "click" (some "#login-btn") none) rfl hd]
  rfl

/-- Witness for the amended C4 under the all-success driver. -/
theorem c4_lowercase_click_w :
    dAllOk (DriverOp.click (some "#login-btn")) = Except.ok () ∧
    (executeActions dAllOk
      (parseAnalysis "1. click the button with id=\"login-btn\"")).1
      = [JsValue.vstr "Clicked #login-btn"] :=
  ⟨rfl, (c4_lowercase_click dAllOk rfl).2⟩

/-- C5: selector resolution tries, in order, the `id="…"` pattern (giving
`#id`), then the `class="…"` pattern (giving `.class`), then a single-quoted
literal (giving `text="literal"`), else null; a line containing both id and
class resolves to the id form, and a line with `id="foo"` plus the keyword
click parses to a click action with selector `#foo`. -/
theorem c5_selector_priority (line : List Char) :
    (∀ c, firstCapture idPat dq line = some c →
      extractSelector line = some ("#" ++ String.mk c)) ∧
    (∀ c, firstCapture idPat dq line = none →
      firstCapture classPat dq line = some c →
      extractSelector line = some ("." ++ String.mk c)) ∧
    (∀ c, firstCapture idPat dq line = none →
      firstCapture classPat dq line = none →
      firstCapture [sq] sq line = some c →
      extractSelector line
        = some ("text=" ++ String.mk [dq] ++ String.mk c ++ String.mk [dq])) ∧
    (firstCapture idPat dq line = none →
      firstCapture classPat dq line = none →
      firstCapture [sq] sq line = none →
      extractSelector line = none) ∧
    extractSelector ("click id=\"a\" class=\"b\"".toList) = some "#a" ∧
    parseAnalysis "click on id=\"foo\"" = [Action.mk "click" (some "#foo") none] := by
  refine ⟨?_, ?_, ?_, ?_, by decide, by decide⟩
  · intro c h
    unfold extractSelector
    rw [h]
  · intro c h1 h2
    unfold extractSelector
    rw [h1, h2]
  · intro c h1 h2 h3
    unfold extractSelector
    rw [h1, h2, h3]
  · intro h1 h2 h3
    unfold extractSelector
    rw [h1, h2, h3]

/-- Witness for C5: the id pattern fires on a line carrying both id and
class, and the resolved selector is the id form. -/
theorem c5_selector_priority_w :
    firstCapture idPat dq ("click id=\"a\" class=\"b\"".toList) = some ['a'] ∧
    extractSelector ("click id=\"a\" class=\"b\"".toList)
      = some ("#" ++ String.mk ['a']) :=
  ⟨by decide,
    (c5_selector_priority ("click id=\"a\" class=\"b\"".toList)).1 ['a'] (by decide)⟩

/-- C6 counterexample: the value the executor records for a successful click
is the plain string `Clicked #login-btn`, not a record with a `description`
string and a `succeeded` boolean. -/
theorem c6_plain_string_cex :
    (executeActions dAllOk [Action.mk "click" (some "#login-btn") none]).1
      = [JsValue.vstr "Clicked #login-btn"] ∧
    isActionResultRecord (JsValue.vstr "Clicked #login-btn") = false := by
  decide

/-- C6 (amended): every element of the executor's output is a plain string
description — success or failure is encoded in the text, not in a separate
boolean field — and a successful click is recorded as the string
`Clicked <selector>`. -/
theorem c6_results_are_strings (d : Driver) (as : List Action)
    (hd : d (DriverOp.click (some "#login-btn")) = Except.ok ()) :
    (∀ v ∈ (executeActions d as).1, ∃ s, v = JsValue.vstr s) ∧
    (executeActions d [Action.mk "click" (some "#login-btn") none]).1
      = [JsValue.vstr "Clicked #login-btn"] := by
  constructor
  · intro v hv
    rw [executeActions_results_flatMap] at hv
    rcases List.mem_flatMap.mp hv with ⟨a, _, hva⟩
    exact execOne_results_vstr d a v hva
  · rw [executeActions_cons,
      execOne_click_ok d (Action.mk "click" (some "#login-btn") none) rfl hd]
    rfl

/-- Witness for the amended C6 under the all-success driver. -/
theorem c6_results_are_strings_w :
    dAllOk (DriverOp.click (some "#login-btn")) = Except.ok () ∧
    (executeActions dAllOk [Action.mk "click" (some "#login-btn") none]).1
      = [JsValue.vstr "Clicked #login-btn"] :=
  ⟨rfl, (c6_results_are_strings dAllOk [] rfl).2⟩

/-- C7 counterexample: when an action's dispatch throws, the executor skips
the network-settle wait for that action — the action is recorded as failed,
yet `networkIdle` is never requested — contradicting the claim that the wait
happens after every executed action. -/
theorem c7_settle_skipped_cex :
    (executeActions dReject [actClickA]).1
      = [JsValue.vstr "Failed to execute click: selector must be a string"] ∧
    DriverOp.networkIdle ∉ (executeActions dReject [actClickA]).2 := by
  decide

/-- C7 (amended): the bounded network-settle wait is performed after an
action only when the dispatched driver call does not throw; when it throws,
the wait is skipped for that action.  A timeout of the wait is swallowed:
the executor never even consults the wait's outcome, so two drivers agreeing
on everything but `networkIdle` yield identical results and traces. -/
theorem c7_settle_after_nonthrowing (d d' : Driver) (as : List Action)
    (a : Action) (op : DriverOp) (e : String)
    (hagree : ∀ q, q ≠ DriverOp.networkIdle → d q = d' q)
    (hop : dispatchOf a = some op) :
    executeActions d as = executeActions d' as ∧
    (d op = Except.ok () → (execOne d a).2 = [op, DriverOp.networkIdle]) ∧
    (d op = Except.error e → (execOne d a).2 = [op]) := by
  refine ⟨executeActions_agree d d' as hagree, ?_, ?_⟩
  · intro hok
    unfold dispatchOf at hop
    split_ifs at hop with h1 h2 h3
    · cases Option.some.inj hop
      rw [execOne_click_ok d a h1 hok]
    · cases Option.some.inj hop
      rw [execOne_type_ok d a h2 hok]
    · cases Option.some.inj hop
      rw [execOne_submit_ok d a h3 hok]
  · intro herr
    unfold dispatchOf at hop
    split_ifs at hop with h1 h2 h3
    · cases Option.some.inj hop
      rw [execOne_click_err d a e h1 herr]
    · cases Option.some.inj hop
      rw [execOne_type_err d a e h2 herr]
    · cases Option.some.inj hop
      rw [execOne_submit_err d a e h3 herr]

/-- Witness for the amended C7: a successful click is followed by exactly one
network-settle request. -/
theorem c7_settle_after_nonthrowing_w :
    (∀ q, q ≠ DriverOp.networkIdle → dAllOk q = dAllOk q) ∧
    dispatchOf actClickA = some (DriverOp.click (some "#a")) ∧
    (execOne dAllOk actClickA).2 = [DriverOp.click (some "#a"), DriverOp.networkIdle] :=
  ⟨fun _ _ => rfl, by decide,
    (c7_settle_after_nonthrowing dAllOk dAllOk [] actClickA
      (DriverOp.click (some "#a")) "e" (fun _ _ => rfl) (by decide)).2.1 rfl⟩

/-- C8: every exception from navigation, extraction, or planning surfaces as
the single wrapped error `Task execution failed: <message>` — the error
constructor carries no action results — and when no stage fails the task
returns success with the executor's results and the message
`Task completed successfully`.  (Parsing is total and cannot raise.) -/
theorem c8_stage_failure_wrapping (st : Stages) (d : Driver) :
    (∀ e, st.goto = Except.error e →
      executeTask st d = TaskOutcome.err ("Task execution failed: " ++ e)) ∧
    (∀ e, st.goto = Except.ok () → st.extract = Except.error e →
      executeTask st d = TaskOutcome.err ("Task execution failed: " ++ e)) ∧
    (∀ e pc, st.goto = Except.ok () → st.extract = Except.ok pc →
      st.chat = Except.error e →
      executeTask st d = TaskOutcome.err ("Task execution failed: " ++ e)) ∧
    (∀ pc text, st.goto = Except.ok () → st.extract = Except.ok pc →
      st.chat = Except.ok text →
      executeTask st d
        = TaskOutcome.ok (executeActions d (parseAnalysis text)).1
            "Task completed successfully") := by
  refine ⟨?_, ?_, ?_, ?_⟩
  · intro e h
    unfold executeTask
    rw [h]
  · intro e hg hx
    unfold executeTask
    rw [hg, hx]
  · intro e pc hg hx hc
    unfold executeTask
    rw [hg, hx, hc]
  · intro pc text hg hx hc
    unfold executeTask
    rw [hg, hx, hc]

/-- Witness for C8: the all-success stages produce the success outcome. -/
theorem c8_stage_failure_wrapping_w :
    (stagesOk.goto = Except.ok () ∧ stagesOk.extract = Except.ok pcEmpty ∧
      stagesOk.chat = Except.ok "1. click the button with id=\"login-btn\"") ∧
    executeTask stagesOk dAllOk
      = TaskOutcome.ok
          (executeActions dAllOk
            (parseAnalysis "1. click the button with id=\"login-btn\"")).1
          "Task completed successfully" :=
  ⟨⟨rfl, rfl, rfl⟩,
    (c8_stage_failure_wrapping stagesOk dAllOk).2.2.2 pcEmpty
      "1. click the button with id=\"login-btn\"" rfl rfl rfl⟩

/-- C9 counterexample: when `executeTask` raises (here: navigation timeout),
the handler responds 500 without ever invoking the agent's close operation —
the browser session is not released on the failure exit path. -/
theorem c9_close_skipped_cex :
    (handler reqOk agNavFail).1 = 500 ∧
    AgentEvent.close ∉ (handler reqOk agNavFail).2 := by
  decide

/-- C9 (amended): on a valid POST request whose agent launches, the close
operation is invoked before the handler completes only on the path where
`executeTask` returns successfully; when `executeTask` raises, the handler
completes with the lifecycle trace launch-then-task and no close call. -/
theorem c9_close_only_on_success (req : Req) (ag : AgentBehavior)
    (r : List JsValue) (m e : String)
    (hm : req.method = "POST") (hu : falsy req.url = false)
    (ht : falsy req.task = false) (hl : ag.launch = Except.ok ()) :
    (executeTask ag.stages ag.driver = TaskOutcome.ok r m →
      AgentEvent.close ∈ (handler req ag).2) ∧
    (executeTask ag.stages ag.driver = TaskOutcome.err e →
      (handler req ag).2 = [AgentEvent.launch, AgentEvent.runTask] ∧
      AgentEvent.close ∉ (handler req ag).2) := by
  unfold handler
  rw [if_neg (by simp [hm]), if_neg (by simp [hu, ht]), hl]
  constructor
  · intro htask
    rw [htask]
    rcases hc : ag.close with v | e2
    · exact List.mem_cons_of_mem _ (List.mem_cons_of_mem _ (List.mem_cons_self _ _))
    · exact List.mem_cons_of_mem _ (List.mem_cons_of_mem _ (List.mem_cons_self _ _))
  · intro htask
    rw [htask]
    refine ⟨rfl, ?_⟩
    show AgentEvent.close ∉ [AgentEvent.launch, AgentEvent.runTask]
    decide

/-- Witness for the amended C9: on a fully successful run the close call is
in the handler's lifecycle trace. -/
theorem c9_close_only_on_success_w :
    (reqOk.method = "POST" ∧ falsy reqOk.url = false ∧ falsy reqOk.task = false ∧
      agOk.launch = Except.ok () ∧
      executeTask agOk.stages agOk.driver
        = TaskOutcome.ok [JsValue.vstr "Clicked #login-btn"]
            "Task completed successfully") ∧
    AgentEvent.close ∈ (handler reqOk agOk).2 :=
  ⟨⟨rfl, rfl, rfl, rfl, by decide⟩,
    (c9_close_only_on_success reqOk agOk [JsValue.vstr "Clicked #login-btn"]
      "Task completed successfully" "" rfl rfl rfl rfl).1 (by decide)⟩

/-- C10: an action whose tag is none of click / type / submit falls through
the executor's switch: it records no result at all, still performs the
network-settle wait, and makes the output strictly shorter than the input;
the exactly-one-result-per-action guarantee is restored for parser output,
whose actions always carry one of the three tags. -/
theorem c10_unknown_tag_drops_result (d : Driver) (as : List Action) (a : Action)
    (h1 : ¬ a.Known) (h2 : a ∈ as) :
    (execOne d a).1 = [] ∧
    (execOne d a).2 = [DriverOp.networkIdle] ∧
    (executeActions d as).1.length < as.length ∧
    (∀ s b, b ∈ parseAnalysis s → b.Known) := by
  have he := execOne_unknown d a h1
  exact ⟨by rw [he], by rw [he],
    executeActions_length_lt d as a (by rw [he]) h2,
    fun s b hb => parseAnalysis_known s b hb⟩

/-- Witness for C10: a hover action yields no result, so the output of a
one-action sequence is shorter than the input. -/
theorem c10_unknown_tag_drops_result_w :
    (¬ actHover.Known ∧ actHover ∈ [actHover]) ∧
    (executeActions dAllOk [actHover]).1.length < ([actHover] : List Action).length :=
  ⟨⟨by decide, by decide⟩,
    (c10_unknown_tag_drops_result dAllOk [actHover] actHover
      (by decide) (by decide)).2.2.1⟩


end Rosie
